import Mathlib

/-!
Verification of the tiny-disp MSC display driver.

The definitions below are a shallow embedding of the Python sources:
`src/lib/msc_display_lib.py` (protocol codec, discovery, display surface),
`src/main.py` (scheduler wait loop), `src/lib/display_interface.py`
(plugin lifecycle) and `src/plugins/plugin_zfs_pages.py` (multi-page
plugin state).  Serial writes are modelled as the list of 6-byte frames
they emit, in emission order; stateful code is modelled as explicit
state-passing functions.
-/

namespace TinyDisp

/-- A command frame: the list of byte values passed to `bytearray(...)`
before being written to the serial port (6 bytes in every frame the
library emits). -/
abbrev Frame := List Nat

/-- Frames of `send_keep_alive` (msc_display_lib.py, lines 151-157): the single
frame `[2, 3, 10, 0, 0, 0]` and drains any response. -/
def send_keep_alive_frames : List Frame := [[2, 3, 10, 0, 0, 0]]

/-- Frames of `MSCDisplay.set_orientation` (msc_display_lib.py, lines 335-345): the body
writes `bytearray([2, 3, 10, 0, 0, 0])`; the `landscape` argument is never
read. -/
def set_orientation_frames (landscape : Bool) : List Frame := [[2, 3, 10, 0, 0, 0]]

/-- Frames of `draw_pixel` (msc_display_lib.py, lines 168-185): three frames. -/
def draw_pixel_frames (x y color : Nat) : List Frame :=
  [[2, 0, x / 256, x % 256, y / 256, y % 256],
   [2, 1, 0, 1, 0, 1],
   [2, 3, 11, color / 256, color % 256, 0]]

/-- Frames of `draw_rect` (msc_display_lib.py, lines 188-207): position,
size, and the sub-opcode-11 fill command which carries the color bytes. -/
def draw_rect_frames (x y width height color : Nat) : List Frame :=
  [[2, 0, x / 256, x % 256, y / 256, y % 256],
   [2, 1, width / 256, width % 256, height / 256, height % 256],
   [2, 3, 11, color / 256, color % 256, 0]]

/-- Frames of `clear_screen` (msc_display_lib.py, lines 210-219): a full-screen
`draw_rect(0, 0, 160, 80, color)`. -/
def clear_screen_frames (color : Nat) : List Frame :=
  draw_rect_frames 0 0 160 80 color

/-! ## Serial session model (for `is_device_connected`)

`is_device_connected` (msc_display_lib.py, lines 133-148) calls
`send_keep_alive` inside `try:` and returns `True` unless an exception is
raised.  `send_keep_alive` writes one frame, sleeps, and reads (and
discards) whatever bytes are waiting; it never inspects them.  The model
records the pending response bytes (`inBuf`), the bytes written so far,
and whether a write raises an OS-level I/O exception (`writeRaises`). -/

structure SerialPort where
  inBuf : List Nat
  written : List Nat
  writeRaises : Bool

/-- Model of `ser.write(cmd)`: raises (`none`) iff the port is gone. -/
def sp_write (s : SerialPort) (frame : Frame) : Option SerialPort :=
  if s.writeRaises then none else some { s with written := s.written ++ frame }

/-- Model of `ser.read(ser.in_waiting)`: drains the input buffer, returning its bytes. -/
def sp_read_all (s : SerialPort) : SerialPort × List Nat :=
  ({ s with inBuf := [] }, s.inBuf)

/-- Running `send_keep_alive(ser)` on the port model: write the keep-alive frame,
then drain the response without looking at it. -/
def send_keep_alive_run (s : SerialPort) : Option SerialPort :=
  match sp_write s [2, 3, 10, 0, 0, 0] with
  | none => none
  | some s1 => some (sp_read_all s1).1

/-- Model of `is_device_connected(ser)`: `True` unless `send_keep_alive` raised. -/
def is_device_connected (s : SerialPort) : Bool :=
  (send_keep_alive_run s).isSome

/-! ## Claims C1, C3, C9 -/

/-- C1, counterexample: `draw_rect(0, 0, 160, 80, BLACK)` emits 3 frames, not
4, and none of them is a SET_COLOR (opcode 2, sub-opcode 2) frame. -/
theorem c1_counterexample :
    (draw_rect_frames 0 0 160 80 0).length ≠ 4 ∧
    (draw_rect_frames 0 0 160 80 0).all (fun f => decide (f.take 2 ≠ [2, 2])) = true := by
  decide

/-- C1 (corrected): for all in-range arguments, `draw_rect(x, y, w, h, color)`
emits exactly three 6-byte frames, in order: SET_POSITION(x, y),
SET_SIZE(w, h), and DRAW_COMMAND sub-opcode 11 carrying the color's high and
low bytes; there is no separate SET_COLOR frame.  `clear_screen(color)` emits
exactly the frames of `draw_rect(0, 0, 160, 80, color)`. -/
theorem c1_three_frames (x y w h color : Nat)
    (hx : x < 65536) (hy : y < 65536) (hw : w < 65536) (hh : h < 65536)
    (hc : color < 65536) :
    draw_rect_frames x y w h color =
      [[2, 0, x / 256, x % 256, y / 256, y % 256],
       [2, 1, w / 256, w % 256, h / 256, h % 256],
       [2, 3, 11, color / 256, color % 256, 0]] ∧
    (draw_rect_frames x y w h color).length = 3 ∧
    (∀ f ∈ draw_rect_frames x y w h color, f.length = 6 ∧ ∀ b ∈ f, b < 256) ∧
    clear_screen_frames color = draw_rect_frames 0 0 160 80 color := by
  refine ⟨rfl, rfl, ?_, rfl⟩
  intro f hf
  simp only [draw_rect_frames, List.mem_cons, List.not_mem_nil, or_false] at hf
  rcases hf with h | h | h <;> subst h <;> refine ⟨rfl, ?_⟩ <;>
    intro b hb <;>
    simp only [List.mem_cons, List.not_mem_nil, or_false] at hb <;>
    rcases hb with h | h | h | h | h | h <;> subst h <;> omega

/-- C1 witness: the corrected statement instantiated at
`draw_rect(0, 0, 160, 80, BLACK)`. -/
theorem c1_witness :
    draw_rect_frames 0 0 160 80 0 =
      [[2, 0, 0 / 256, 0 % 256, 0 / 256, 0 % 256],
       [2, 1, 160 / 256, 160 % 256, 80 / 256, 80 % 256],
       [2, 3, 11, 0 / 256, 0 % 256, 0]] ∧
    (draw_rect_frames 0 0 160 80 0).length = 3 ∧
    (∀ f ∈ draw_rect_frames 0 0 160 80 0, f.length = 6 ∧ ∀ b ∈ f, b < 256) ∧
    clear_screen_frames 0 = draw_rect_frames 0 0 160 80 0 :=
  c1_three_frames 0 0 160 80 0 (by decide) (by decide) (by decide) (by decide)
    (by decide)

/-- C3, counterexample: a connected session whose pending response is empty
(zero-length read) and one whose response does not echo the request's opcode
and sub-opcode both still report connected — the response bytes are never
inspected. -/
theorem c3_counterexample :
    is_device_connected { inBuf := [], written := [], writeRaises := false } = true ∧
    is_device_connected { inBuf := [9, 9, 0, 0, 0, 0], written := [], writeRaises := false } = true := by
  constructor <;> rfl

/-- C3 (corrected): `is_device_connected` reports `False` exactly when the
keep-alive write raises an OS-level I/O exception; the content of the
response — zero-length or a non-echoing frame alike — is drained unread and
never invalidates the session. -/
theorem c3_connected_iff_no_raise (s : SerialPort) :
    is_device_connected s = !s.writeRaises := by
  cases h : s.writeRaises <;>
    simp [is_device_connected, send_keep_alive_run, sp_write, sp_read_all, h]

/-- C9 (confirmed): `MSCDisplay.set_orientation` writes the same single
keep-alive/no-op frame `[2, 3, 10, 0, 0, 0]` whatever its `landscape`
argument is — the argument has no observable effect on the wire. -/
theorem c9_landscape_irrelevant (b1 b2 : Bool) :
    set_orientation_frames b1 = set_orientation_frames b2 ∧
    set_orientation_frames b1 = send_keep_alive_frames ∧
    set_orientation_frames b1 = [[2, 3, 10, 0, 0, 0]] :=
  ⟨rfl, rfl, rfl⟩

/-! ## Font, bitmap rotation and glyph drawing (msc_display_lib.py) -/

/-- The font table `FONT_5X7` (msc_display_lib.py, lines 14-60): the 5-column bitmap for a
character, `none` for characters absent from the table. -/
def FONT_5X7 : Char → Option (List Nat)
  | '0' => some [0x3E, 0x51, 0x49, 0x45, 0x3E]
  | '1' => some [0x00, 0x42, 0x7F, 0x40, 0x00]
  | '2' => some [0x42, 0x61, 0x51, 0x49, 0x46]
  | '3' => some [0x21, 0x41, 0x45, 0x4B, 0x31]
  | '4' => some [0x18, 0x14, 0x12, 0x7F, 0x10]
  | '5' => some [0x27, 0x45, 0x45, 0x45, 0x39]
  | '6' => some [0x3C, 0x4A, 0x49, 0x49, 0x30]
  | '7' => some [0x01, 0x71, 0x09, 0x05, 0x03]
  | '8' => some [0x36, 0x49, 0x49, 0x49, 0x36]
  | '9' => some [0x06, 0x49, 0x49, 0x29, 0x1E]
  | 'A' => some [0x7E, 0x09, 0x09, 0x09, 0x7E]
  | 'B' => some [0x7F, 0x49, 0x49, 0x49, 0x36]
  | 'C' => some [0x3E, 0x41, 0x41, 0x41, 0x22]
  | 'D' => some [0x7F, 0x41, 0x41, 0x22, 0x1C]
  | 'E' => some [0x7F, 0x49, 0x49, 0x49, 0x41]
  | 'F' => some [0x7F, 0x09, 0x09, 0x09, 0x01]
  | 'G' => some [0x3E, 0x41, 0x49, 0x49, 0x7A]
  | 'H' => some [0x7F, 0x08, 0x08, 0x08, 0x7F]
  | 'I' => some [0x00, 0x41, 0x7F, 0x41, 0x00]
  | 'J' => some [0x20, 0x40, 0x41, 0x3F, 0x01]
  | 'K' => some [0x7F, 0x08, 0x14, 0x22, 0x41]
  | 'L' => some [0x7F, 0x40, 0x40, 0x40, 0x40]
  | 'M' => some [0x7F, 0x02, 0x0C, 0x02, 0x7F]
  | 'N' => some [0x7F, 0x04, 0x08, 0x10, 0x7F]
  | 'O' => some [0x3E, 0x41, 0x41, 0x41, 0x3E]
  | 'P' => some [0x7F, 0x09, 0x09, 0x09, 0x06]
  | 'Q' => some [0x3E, 0x41, 0x51, 0x21, 0x5E]
  | 'R' => some [0x7F, 0x09, 0x19, 0x29, 0x46]
  | 'S' => some [0x46, 0x49, 0x49, 0x49, 0x31]
  | 'T' => some [0x01, 0x01, 0x7F, 0x01, 0x01]
  | 'U' => some [0x3F, 0x40, 0x40, 0x40, 0x3F]
  | 'V' => some [0x1F, 0x20, 0x40, 0x20, 0x1F]
  | 'W' => some [0x3F, 0x40, 0x38, 0x40, 0x3F]
  | 'X' => some [0x63, 0x14, 0x08, 0x14, 0x63]
  | 'Y' => some [0x07, 0x08, 0x70, 0x08, 0x07]
  | 'Z' => some [0x61, 0x51, 0x49, 0x45, 0x43]
  | ':' => some [0x00, 0x36, 0x36, 0x00, 0x00]
  | '%' => some [0x23, 0x13, 0x08, 0x64, 0x62]
  | ' ' => some [0x00, 0x00, 0x00, 0x00, 0x00]
  | '.' => some [0x00, 0x60, 0x60, 0x00, 0x00]
  | '/' => some [0x20, 0x10, 0x08, 0x04, 0x02]
  | '-' => some [0x08, 0x08, 0x08, 0x08, 0x08]
  | '+' => some [0x08, 0x08, 0x3E, 0x08, 0x08]
  | '(' => some [0x00, 0x1C, 0x22, 0x41, 0x00]
  | ')' => some [0x00, 0x41, 0x22, 0x1C, 0x00]
  | _ => none

/-- Inner loop of `rotate_bitmap_90` (msc_display_lib.py, lines 232-238): the
byte produced for one output row. -/
def rotRowByte (bitmap : List Nat) (row : Nat) : Nat :=
  (List.range 5).foldl
    (fun new_byte col =>
      if bitmap.getD col 0 &&& (1 <<< row) ≠ 0 then new_byte ||| (1 <<< (4 - col))
      else new_byte) 0

/-- Source function `rotate_bitmap_90` (msc_display_lib.py, lines 222-239): a 5x7 column
bitmap becomes a 7-row bitmap, rotated 90 degrees clockwise. -/
def rotate_bitmap_90 (bitmap : List Nat) : List Nat :=
  (List.range 7).map (fun row => rotRowByte bitmap row)

/-- Source function `draw_char_bitmap` (msc_display_lib.py, lines 242-286): the emitted frames
paired with the returned next coordinate (next x unrotated, next y rotated).
Unknown characters (after `.upper()`) emit nothing but advance the same. -/
def draw_char_bitmap (x y : Nat) (char : Char) (color scale : Nat) (rotated : Bool) :
    List Frame × Nat :=
  match FONT_5X7 char.toUpper with
  | none => ([], if rotated then y + 8 * scale else x + 6 * scale)
  | some bitmap =>
    if rotated then
      let rb := rotate_bitmap_90 bitmap
      (((List.range 7).map (fun col =>
          ((List.range 5).map (fun row =>
            if rb.getD col 0 &&& (1 <<< row) ≠ 0 then
              if scale = 1 then draw_pixel_frames (x + col) (y + row) color
              else draw_rect_frames (x + col * scale) (y + row * scale) scale scale color
            else [])).flatten)).flatten,
       y + 8 * scale)
    else
      (((List.range 5).map (fun col =>
          ((List.range 7).map (fun row =>
            if bitmap.getD col 0 &&& (1 <<< row) ≠ 0 then
              if scale = 1 then draw_pixel_frames (x + col) (y + row) color
              else draw_rect_frames (x + col * scale) (y + row * scale) scale scale color
            else [])).flatten)).flatten,
       x + 6 * scale)

/-- The unrotated loop of `draw_text_bitmap` (msc_display_lib.py, lines
310-314): iterate the characters left to right, threading `current_x`. -/
def drawTextGoUnrot (y color scale : Nat) : List Char → Nat → List Frame × Nat
  | [], current_x => ([], current_x)
  | c :: cs, current_x =>
    let r := draw_char_bitmap current_x y c color scale false
    let rest := drawTextGoUnrot y color scale cs r.2
    (r.1 ++ rest.1, rest.2)

/-- The rotated loop of `draw_text_bitmap` (msc_display_lib.py, lines
305-309): iterate an already-reversed character list, threading `current_y`
at a fixed x. -/
def drawTextGoRot (x color scale : Nat) : List Char → Nat → List Frame × Nat
  | [], current_y => ([], current_y)
  | c :: cs, current_y =>
    let r := draw_char_bitmap x current_y c color scale true
    let rest := drawTextGoRot x color scale cs r.2
    (r.1 ++ rest.1, rest.2)

/-- Source function `draw_text_bitmap` (msc_display_lib.py, lines 289-314): rotated text
iterates `reversed(text)` advancing y; unrotated text iterates `text`
advancing x. -/
def draw_text_bitmap (x y : Nat) (text : List Char) (color scale : Nat) (rotated : Bool) :
    List Frame × Nat :=
  if rotated then drawTextGoRot x color scale text.reverse y
  else drawTextGoUnrot y color scale text x

/-! ## Helper lemmas about glyph drawing -/

/-- Rotated `draw_char_bitmap` always returns `y + 8 * scale`. -/
lemma draw_char_snd_rot (x y : Nat) (c : Char) (color scale : Nat) :
    (draw_char_bitmap x y c color scale true).2 = y + 8 * scale := by
  cases h : FONT_5X7 c.toUpper <;> simp [draw_char_bitmap, h]

/-- Unrotated `draw_char_bitmap` always returns `x + 6 * scale`. -/
lemma draw_char_snd_unrot (x y : Nat) (c : Char) (color scale : Nat) :
    (draw_char_bitmap x y c color scale false).2 = x + 6 * scale := by
  cases h : FONT_5X7 c.toUpper <;> simp [draw_char_bitmap, h]

/-- Closed form of the rotated text loop: the k-th character of the
(already reversed) list is drawn at the fixed x with y advanced by
`8 * scale` per character, and the final y is past the whole list. -/
lemma drawTextGoRot_eq (x color scale : Nat) (cs : List Char) :
    ∀ cy, drawTextGoRot x color scale cs cy =
      ((cs.enum.map (fun p =>
          (draw_char_bitmap x (cy + 8 * scale * p.1) p.2 color scale true).1)).flatten,
       cy + 8 * scale * cs.length) := by
  induction cs with
  | nil => intro cy; simp [drawTextGoRot]
  | cons c cs ih =>
    intro cy
    simp only [drawTextGoRot, draw_char_snd_rot, ih (cy + 8 * scale), List.enum_cons',
      List.map_cons, List.map_map, List.flatten_cons, List.length_cons]
    refine Prod.ext ?_ ?_
    · simp only [Nat.mul_zero, Nat.add_zero]
      congr 1
      refine congrArg List.flatten (List.map_congr_left ?_)
      rintro ⟨i, ch⟩ hp
      simp only [Function.comp_apply, Prod.map_apply, id_eq]
      congr 2
      ring
    · show cy + 8 * scale + 8 * scale * cs.length = cy + 8 * scale * (cs.length + 1)
      ring

/-! ## Claims C5, C6 -/

/-- C6 (confirmed): for every character and scale, `draw_char_bitmap` returns
`x + 6 * scale` unrotated and `y + 8 * scale` rotated (lookup is on the
uppercased character); a character absent from the font table emits no frames
at all while returning the same advance, so it occupies exactly the footprint
of a known glyph. -/
theorem c6_char_advance (c : Char) (x y color scale : Nat) :
    (draw_char_bitmap x y c color scale false).2 = x + 6 * scale ∧
    (draw_char_bitmap x y c color scale true).2 = y + 8 * scale ∧
    (FONT_5X7 c.toUpper = none →
      (draw_char_bitmap x y c color scale false).1 = [] ∧
      (draw_char_bitmap x y c color scale true).1 = []) := by
  refine ⟨draw_char_snd_unrot x y c color scale, draw_char_snd_rot x y c color scale, ?_⟩
  intro h
  constructor <;> simp [draw_char_bitmap, h]

/-- C6 witness: instantiated at the unknown character `~`. -/
theorem c6_witness :
    (draw_char_bitmap 5 7 '~' 100 2 false).2 = 5 + 6 * 2 ∧
    (draw_char_bitmap 5 7 '~' 100 2 true).2 = 7 + 8 * 2 ∧
    ((draw_char_bitmap 5 7 '~' 100 2 false).1 = [] ∧
      (draw_char_bitmap 5 7 '~' 100 2 true).1 = []) :=
  ⟨(c6_char_advance '~' 5 7 100 2).1, (c6_char_advance '~' 5 7 100 2).2.1,
    (c6_char_advance '~' 5 7 100 2).2.2 (by decide)⟩

/-- C5 (confirmed): rotated `draw_text_bitmap` iterates the string in reverse
order at a fixed x, advancing y by `8 * scale` per character; on "AB" it draws
B at y then A at `y + 8 * scale`, while unrotated "AB" draws A at x then B at
`x + 6 * scale` at constant y. -/
theorem c5_rotated_reverses (s : List Char) (x y color scale : Nat) :
    draw_text_bitmap x y s color scale true =
      ((s.reverse.enum.map (fun p =>
          (draw_char_bitmap x (y + 8 * scale * p.1) p.2 color scale true).1)).flatten,
       y + 8 * scale * s.length) ∧
    draw_text_bitmap x y ['A', 'B'] color scale true =
      ((draw_char_bitmap x y 'B' color scale true).1 ++
        (draw_char_bitmap x (y + 8 * scale) 'A' color scale true).1,
       y + 16 * scale) ∧
    draw_text_bitmap x y ['A', 'B'] color scale false =
      ((draw_char_bitmap x y 'A' color scale false).1 ++
        (draw_char_bitmap (x + 6 * scale) y 'B' color scale false).1,
       x + 12 * scale) := by
  refine ⟨?_, ?_, ?_⟩
  · show drawTextGoRot x color scale s.reverse y = _
    rw [drawTextGoRot_eq, List.length_reverse]
  · show drawTextGoRot x color scale ['B', 'A'] y = _
    simp only [drawTextGoRot, draw_char_snd_rot, List.append_nil]
    refine Prod.ext rfl ?_
    show y + 8 * scale + 8 * scale = y + 16 * scale
    ring
  · show drawTextGoUnrot y color scale ['A', 'B'] x = _
    simp only [drawTextGoUnrot, draw_char_snd_unrot, List.append_nil]
    refine Prod.ext rfl ?_
    show x + 6 * scale + 6 * scale = x + 12 * scale
    ring

/-! ## Claim C7: the 90-degree bitmap rotation -/

/-- The loop guard `bitmap[col] & (1 << row)` selects on bit `row` of the
column byte. -/
lemma if_shift {α : Sort _} (b r : Nat) (t e : α) :
    (if b &&& (1 <<< r) ≠ 0 then t else e) = cond (b.testBit r) t e := by
  cases h : b.testBit r
  · refine if_neg ?_
    rw [Nat.one_shiftLeft, Nat.and_two_pow, h]
    simp
  · refine if_pos ?_
    rw [Nat.one_shiftLeft, Nat.and_two_pow, h]
    simpa using (Nat.two_pow_pos r).ne'

/-- One output row of `rotate_bitmap_90` as a sum of disjoint bit weights:
column 0 contributes bit 4, column 1 bit 3, ..., column 4 bit 0. -/
lemma rotRowByte_eq (b0 b1 b2 b3 b4 row : Nat) :
    rotRowByte [b0, b1, b2, b3, b4] row =
      16 * (b0.testBit row).toNat + 8 * (b1.testBit row).toNat +
      4 * (b2.testBit row).toNat + 2 * (b3.testBit row).toNat +
      (b4.testBit row).toNat := by
  have e : List.range 5 = [0, 1, 2, 3, 4] := rfl
  simp only [rotRowByte, e, List.foldl_cons, List.foldl_nil, List.getD_cons_zero,
    List.getD_cons_succ, if_shift]
  cases hb0 : b0.testBit row <;> cases hb1 : b1.testBit row <;>
    cases hb2 : b2.testBit row <;> cases hb3 : b3.testBit row <;>
    cases hb4 : b4.testBit row <;> rfl

/-- The bits of a five-flag byte `16 t0 + 8 t1 + 4 t2 + 2 t3 + t4`. -/
lemma sumByte_testBit (t0 t1 t2 t3 t4 : Bool) (k : Nat) (hk : k < 5) :
    (16 * t0.toNat + 8 * t1.toNat + 4 * t2.toNat + 2 * t3.toNat + t4.toNat).testBit k =
      (if k = 4 then t0 else if k = 3 then t1 else if k = 2 then t2
       else if k = 1 then t3 else t4) := by
  interval_cases k <;> revert t0 t1 t2 t3 t4 <;> decide

/-- A five-flag byte is below 32, so bits 5 and above are clear. -/
lemma sumByte_lt (t0 t1 t2 t3 t4 : Bool) :
    16 * t0.toNat + 8 * t1.toNat + 4 * t2.toNat + 2 * t3.toNat + t4.toNat < 32 := by
  have h0 := Bool.toNat_le t0
  have h1 := Bool.toNat_le t1
  have h2 := Bool.toNat_le t2
  have h3 := Bool.toNat_le t3
  have h4 := Bool.toNat_le t4
  omega

/-- C7 (confirmed): `rotate_bitmap_90` returns 7 bytes; bit `4 - col` of the
`row`-th output byte is set iff bit `row` of input column `col` is set, no
bit at position 5 or above is ever set, and on the `I` glyph (which is the
entry the font table stores for `I`) it yields exactly
`[0x0E, 0x04, 0x04, 0x04, 0x04, 0x04, 0x0E]`. -/
theorem c7_rotate_bitmap (b0 b1 b2 b3 b4 row col : Nat)
    (hrow : row < 7) (hcol : col < 5) :
    (rotate_bitmap_90 [b0, b1, b2, b3, b4]).length = 7 ∧
    ((rotate_bitmap_90 [b0, b1, b2, b3, b4]).getD row 0).testBit (4 - col) =
      ([b0, b1, b2, b3, b4].getD col 0).testBit row ∧
    (∀ k, 5 ≤ k →
      ((rotate_bitmap_90 [b0, b1, b2, b3, b4]).getD row 0).testBit k = false) ∧
    FONT_5X7 'I' = some [0x00, 0x41, 0x7F, 0x41, 0x00] ∧
    rotate_bitmap_90 [0x00, 0x41, 0x7F, 0x41, 0x00] =
      [0x0E, 0x04, 0x04, 0x04, 0x04, 0x04, 0x0E] := by
  have hrot : rotate_bitmap_90 [b0, b1, b2, b3, b4] =
      [rotRowByte [b0, b1, b2, b3, b4] 0, rotRowByte [b0, b1, b2, b3, b4] 1,
       rotRowByte [b0, b1, b2, b3, b4] 2, rotRowByte [b0, b1, b2, b3, b4] 3,
       rotRowByte [b0, b1, b2, b3, b4] 4, rotRowByte [b0, b1, b2, b3, b4] 5,
       rotRowByte [b0, b1, b2, b3, b4] 6] := rfl
  have hgetD : (rotate_bitmap_90 [b0, b1, b2, b3, b4]).getD row 0 =
      rotRowByte [b0, b1, b2, b3, b4] row := by
    rw [hrot]
    interval_cases row <;> rfl
  refine ⟨by rw [hrot]; rfl, ?_, ?_, rfl, by decide⟩
  · rw [hgetD]
    interval_cases col <;>
      simp only [List.getD_cons_zero, List.getD_cons_succ] <;>
      rw [rotRowByte_eq, sumByte_testBit _ _ _ _ _ _ (by norm_num)] <;> norm_num
  · intro k hk
    rw [hgetD, rotRowByte_eq]
    refine Nat.testBit_lt_two_pow ?_
    calc 16 * (b0.testBit row).toNat + 8 * (b1.testBit row).toNat +
        4 * (b2.testBit row).toNat + 2 * (b3.testBit row).toNat +
        (b4.testBit row).toNat < 32 := sumByte_lt _ _ _ _ _
      _ = 2 ^ 5 := rfl
      _ ≤ 2 ^ k := Nat.pow_le_pow_right (by norm_num) hk

/-! ## Claim C2: the scheduler's inter-update wait loop (main.py)

`run_plugin_loop` (main.py, lines 49-94) waits between `update()` calls
with

    elapsed = 0
    while elapsed < update_interval:
        if not is_device_connected(manager.ser): return
        time.sleep(keepalive_interval)
        elapsed += keepalive_interval

`is_device_connected` sends one keep-alive frame, so — assuming the device
stays connected — a keep-alive is sent at each value `elapsed` takes at the
top of an iteration, and the loop ends with the final value of `elapsed`. -/

/-- The constant `keepalive_interval = 3` (main.py, line 60). -/
def keepaliveInterval : Nat := 3

/-- The values of `elapsed` at which the wait loop checks connectivity (and
hence sends a keep-alive), assuming the device stays connected. -/
def waitCheckTimes (update_interval elapsed : Nat) : List Nat :=
  if h : elapsed < update_interval then
    elapsed :: waitCheckTimes update_interval (elapsed + keepaliveInterval)
  else []
termination_by update_interval - elapsed
decreasing_by simp only [keepaliveInterval]; omega

/-- The value of `elapsed` when the wait loop exits (the time, relative to
the previous `update()`, at which the next `update()` runs). -/
def waitFinalElapsed (update_interval elapsed : Nat) : Nat :=
  if h : elapsed < update_interval then
    waitFinalElapsed update_interval (elapsed + keepaliveInterval)
  else elapsed
termination_by update_interval - elapsed
decreasing_by simp only [keepaliveInterval]; omega

/-- C2, counterexample: with `update_interval = 10` the wait loop does not
check connectivity at exactly {3, 6, 9}, and it does not exit at elapsed
10. -/
theorem c2_counterexample :
    ¬(waitCheckTimes 10 0 = [3, 6, 9] ∧ waitFinalElapsed 10 0 = 10) := by
  have h1 : waitCheckTimes 10 0 = [0, 3, 6, 9] := by
    rw [waitCheckTimes, waitCheckTimes, waitCheckTimes, waitCheckTimes, waitCheckTimes]
    norm_num [keepaliveInterval]
  have h2 : waitFinalElapsed 10 0 = 12 := by
    rw [waitFinalElapsed, waitFinalElapsed, waitFinalElapsed, waitFinalElapsed,
      waitFinalElapsed]
    norm_num [keepaliveInterval]
  rw [h1, h2]
  intro h
  exact absurd h.1 (by norm_num)

/-- C2 (corrected): with `update_interval() = 10` and the 3-second keep-alive
sub-interval, the wait loop checks connectivity — sending one keep-alive
frame each time — 4 times, at t = 0, 3, 6 and 9 after the previous
`update()`, and exits with elapsed = 12, so the next `update()` runs at
t = 12, not t = 10 (the loop checks before each sleep and overshoots the
interval because 3 does not divide 10). -/
theorem c2_wait_cadence :
    waitCheckTimes 10 0 = [0, 3, 6, 9] ∧
    (waitCheckTimes 10 0).length = 4 ∧
    waitFinalElapsed 10 0 = 12 := by
  have h1 : waitCheckTimes 10 0 = [0, 3, 6, 9] := by
    rw [waitCheckTimes, waitCheckTimes, waitCheckTimes, waitCheckTimes, waitCheckTimes]
    norm_num [keepaliveInterval]
  have h2 : waitFinalElapsed 10 0 = 12 := by
    rw [waitFinalElapsed, waitFinalElapsed, waitFinalElapsed, waitFinalElapsed,
      waitFinalElapsed]
    norm_num [keepaliveInterval]
  exact ⟨h1, by rw [h1]; rfl, h2⟩

/-! ## Claim C10: the plugin lifecycle (display_interface.py)

`DisplayPlugin.start`/`stop` (display_interface.py, lines 90-111) guard the
abstract `initialize()`/`cleanup()` calls with `is_running`.  The model
mirrors the two lifecycle fields of the base class and instruments the
calls to the abstract methods with counters; the outcome of `initialize()`
is an input, since it belongs to the concrete plugin. -/

structure PluginState where
  is_running : Bool
  first_draw : Bool
  initCalls : Nat
  cleanupCalls : Nat
  activations : Nat
deriving DecidableEq

/-- Fresh instance state after `DisplayPlugin.__init__`. -/
def freshPlugin : PluginState :=
  { is_running := false, first_draw := true, initCalls := 0, cleanupCalls := 0,
    activations := 0 }

/-- Model of `DisplayPlugin.start`: returns `True` immediately when already running;
otherwise calls `initialize()` and, on success, marks the plugin running
(counted as an activation) and forces `first_draw`. -/
def plugin_start (init_ok : Bool) (s : PluginState) : PluginState × Bool :=
  if s.is_running then (s, true)
  else
    let s1 := { s with initCalls := s.initCalls + 1 }
    if init_ok then
      ({ s1 with is_running := true, first_draw := true,
                 activations := s1.activations + 1 }, true)
    else (s1, false)

/-- Model of `DisplayPlugin.stop`: calls `cleanup()` only when running. -/
def plugin_stop (s : PluginState) : PluginState :=
  if s.is_running then
    { s with cleanupCalls := s.cleanupCalls + 1, is_running := false,
             first_draw := true }
  else s

/-- A start/stop call, with the outcome `initialize()` would have. -/
inductive PluginOp where
  | start (init_ok : Bool)
  | stop

/-- Run a sequence of start/stop calls. -/
def runPluginOps (s : PluginState) : List PluginOp → PluginState
  | [] => s
  | PluginOp.start ok :: ops => runPluginOps (plugin_start ok s).1 ops
  | PluginOp.stop :: ops => runPluginOps (plugin_stop s) ops

/-- Invariant: cleanups performed plus the currently-running flag equal the
successful activations, starting from a fresh instance. -/
lemma runPluginOps_invariant (ops : List PluginOp) :
    ∀ s : PluginState,
      s.cleanupCalls + s.is_running.toNat = s.activations →
      (runPluginOps s ops).cleanupCalls + (runPluginOps s ops).is_running.toNat =
        (runPluginOps s ops).activations := by
  induction ops with
  | nil => intro s h; exact h
  | cons op ops ih =>
    intro s h
    cases op with
    | start ok =>
      show (runPluginOps (plugin_start ok s).1 ops).cleanupCalls + _ = _
      refine ih _ ?_
      cases hr : s.is_running <;> cases ok <;>
        simp [plugin_start, hr] <;> simp [hr] at h <;> omega
    | stop =>
      show (runPluginOps (plugin_stop s) ops).cleanupCalls + _ = _
      refine ih _ ?_
      cases hr : s.is_running <;>
        simp [plugin_stop, hr] <;> simp [hr] at h <;> omega

/-- C10 (confirmed): `start()` on an already-running plugin returns `True`
without calling `initialize()` (it does not change the instance at all);
`stop()` on a non-running plugin does not call `cleanup()` (it changes
nothing); and over any sequence of start/stop calls from a fresh instance,
`cleanup()` runs at most once per successful activation. -/
theorem c10_lifecycle (ok : Bool) (s : PluginState) (ops : List PluginOp) :
    (s.is_running = true → plugin_start ok s = (s, true)) ∧
    (s.is_running = false → plugin_stop s = s) ∧
    (runPluginOps freshPlugin ops).cleanupCalls ≤
      (runPluginOps freshPlugin ops).activations := by
  refine ⟨?_, ?_, ?_⟩
  · intro h
    simp [plugin_start, h]
  · intro h
    simp [plugin_stop, h]
  · have h := runPluginOps_invariant ops freshPlugin (by rfl)
    omega

/-- C10 witness: a running instance, a stopped instance, and the operation
sequence start-stop-stop-start(fail)-start. -/
theorem c10_witness :
    plugin_start true
        { is_running := true, first_draw := false, initCalls := 1,
          cleanupCalls := 0, activations := 1 } =
      ({ is_running := true, first_draw := false, initCalls := 1,
         cleanupCalls := 0, activations := 1 }, true) ∧
    plugin_stop freshPlugin = freshPlugin ∧
    (runPluginOps freshPlugin
        [PluginOp.start true, PluginOp.stop, PluginOp.stop, PluginOp.start false,
         PluginOp.start true]).cleanupCalls ≤
      (runPluginOps freshPlugin
        [PluginOp.start true, PluginOp.stop, PluginOp.stop, PluginOp.start false,
         PluginOp.start true]).activations :=
  ⟨(c10_lifecycle true
      { is_running := true, first_draw := false, initCalls := 1,
        cleanupCalls := 0, activations := 1 } []).1 rfl,
   (c10_lifecycle true freshPlugin []).2.1 rfl,
   (c10_lifecycle true freshPlugin
      [PluginOp.start true, PluginOp.stop, PluginOp.stop, PluginOp.start false,
       PluginOp.start true]).2.2⟩

/-! ## Claim C4: device discovery (find_msc_device, msc_display_lib.py)

`find_msc_device` (lines 80-109) walks the candidate ports in order.  For
each port it opens, it reads the waiting identification burst; if the burst
is non-empty and its gbk-decode contains the substring "MSN" it writes the
acknowledgement and adopts the port when the echoed confirmation contains
"MSNCN"; otherwise the port is closed and scanning continues.  The first
success is returned.  A port is modelled by its decoded burst, its decoded
confirmation, and whether opening (or any step) raises. -/

structure CandidatePort where
  burst : List Char
  confirm : List Char
  openFails : Bool

/-- Bool test: `needle` is a prefix of the second list. -/
def listPrefixB : List Char → List Char → Bool
  | [], _ => true
  | _ :: _, [] => false
  | a :: as, b :: bs => a == b && listPrefixB as bs

/-- Bool test: `needle` occurs as a contiguous substring (Python `in`). -/
def listContainsB (needle : List Char) : List Char → Bool
  | [] => listPrefixB needle []
  | c :: t => listPrefixB needle (c :: t) || listContainsB needle t

/-- One iteration of the scan loop: the port is adopted when opening
succeeds, the burst is non-empty and contains "MSN", and the confirmation
contains "MSNCN". -/
def tryHandshakePort (p : CandidatePort) : Bool :=
  !p.openFails && !p.burst.isEmpty &&
    listContainsB ['M', 'S', 'N'] p.burst &&
    listContainsB ['M', 'S', 'N', 'C', 'N'] p.confirm

/-- Model of `find_msc_device`: index of the first port that passes the handshake,
`none` when no port does. -/
def find_msc_device : List CandidatePort → Option Nat
  | [] => none
  | p :: ps =>
    if tryHandshakePort p then some 0
    else (find_msc_device ps).map (· + 1)

/-- Modelled from the spec (§4.3): the identification burst the spec says is
required — a null byte, then the literal "MSN", then two ASCII digits —
starting at the current position. -/
def specBurstHead : List Char → Bool
  | c0 :: c1 :: c2 :: c3 :: d1 :: d2 :: _ =>
    c0 == Char.ofNat 0 && c1 == 'M' && c2 == 'S' && c3 == 'N' &&
      d1.isDigit && d2.isDigit
  | _ => false

/-- Modelled from the spec (§4.3): the burst contains a null byte followed by
"MSN" followed by two ASCII digits, at some position. -/
def specBurstOkB : List Char → Bool
  | [] => false
  | c :: t => specBurstHead (c :: t) || specBurstOkB t

lemma listPrefixB_iff (n : List Char) : ∀ h, listPrefixB n h = true ↔ ∃ t, h = n ++ t := by
  induction n with
  | nil =>
    intro h
    simpa [listPrefixB] using ⟨h, rfl⟩
  | cons a as ih =>
    intro h
    cases h with
    | nil => simp [listPrefixB]
    | cons b bs =>
      simp only [listPrefixB, Bool.and_eq_true, beq_iff_eq, ih bs, List.cons_append,
        List.cons.injEq]
      constructor
      · rintro ⟨rfl, t, rfl⟩
        exact ⟨t, rfl, rfl⟩
      · rintro ⟨t, rfl, rfl⟩
        exact ⟨rfl, t, rfl⟩

lemma listContainsB_iff (n : List Char) (hn : n ≠ []) :
    ∀ h, listContainsB n h = true ↔ ∃ l r, h = l ++ n ++ r := by
  intro h
  induction h with
  | nil =>
    simp only [listContainsB, listPrefixB_iff]
    constructor
    · rintro ⟨t, ht⟩
      exact absurd (List.append_eq_nil.mp ht.symm).1 hn
    · rintro ⟨l, r, hr⟩
      rcases List.append_eq_nil.mp hr.symm with ⟨h1, h2⟩
      exact absurd (List.append_eq_nil.mp h1).2 hn
  | cons c t ih =>
    simp only [listContainsB, Bool.or_eq_true, ih, listPrefixB_iff]
    constructor
    · rintro (⟨s, hs⟩ | ⟨l, r, hr⟩)
      · exact ⟨[], s, by simpa using hs⟩
      · exact ⟨c :: l, r, by simp [hr]⟩
    · rintro ⟨l, r, hr⟩
      cases l with
      | nil => exact Or.inl ⟨r, by simpa using hr⟩
      | cons x xs =>
        right
        simp only [List.cons_append, List.cons.injEq] at hr
        exact ⟨xs, r, hr.2⟩

/-- What the code actually requires of a port, as a proposition. -/
def portOkP (p : CandidatePort) : Prop :=
  p.openFails = false ∧ p.burst ≠ [] ∧
  (∃ l r, p.burst = l ++ ['M', 'S', 'N'] ++ r) ∧
  (∃ l r, p.confirm = l ++ ['M', 'S', 'N', 'C', 'N'] ++ r)

lemma tryHandshakePort_iff (p : CandidatePort) :
    tryHandshakePort p = true ↔ portOkP p := by
  simp only [tryHandshakePort, Bool.and_eq_true, Bool.not_eq_true',
    listContainsB_iff ['M', 'S', 'N'] (by simp),
    listContainsB_iff ['M', 'S', 'N', 'C', 'N'] (by simp),
    portOkP, List.isEmpty_eq_false]
  tauto

/-- Default for out-of-range `getD` accesses (an unopenable port). -/
def defaultPort : CandidatePort := { burst := [], confirm := [], openFails := true }

/-- C4 counterexample: a port whose burst is exactly "MSN" — no null byte, no
version digits — with a confirming echo is adopted by the code, although the
burst does not match the spec's required identification pattern. -/
theorem c4_counterexample :
    find_msc_device
        [{ burst := ['M', 'S', 'N'], confirm := ['M', 'S', 'N', 'C', 'N'],
           openFails := false }] = some 0 ∧
    specBurstOkB ['M', 'S', 'N'] = false := by
  constructor <;> decide

/-- C4 (corrected): `find_msc_device` adopts port `i` iff `i` is the first
candidate whose open succeeds, whose identification burst is non-empty and
contains the substring "MSN" (no null byte and no version digits are
required), and whose echoed confirmation contains "MSNCN"; the first
successful handshake wins and scanning stops there. -/
theorem c4_first_msn_wins (ports : List CandidatePort) (i : Nat) :
    find_msc_device ports = some i ↔
      (i < ports.length ∧ portOkP (ports.getD i defaultPort) ∧
        ∀ j, j < i → ¬portOkP (ports.getD j defaultPort)) := by
  induction ports generalizing i with
  | nil =>
    simp [find_msc_device]
  | cons p ps ih =>
    by_cases hp : tryHandshakePort p = true
    · rw [find_msc_device, if_pos hp]
      constructor
      · intro h
        have h0 : i = 0 := by
          injection h with h0
          omega
        subst h0
        exact ⟨by simp, by simpa using (tryHandshakePort_iff p).mp hp,
          fun j hj => absurd hj (by omega)⟩
      · rintro ⟨hlen, hok, hmin⟩
        cases i with
        | zero => rfl
        | succ i' =>
          exact absurd (by simpa using (tryHandshakePort_iff p).mp hp)
            (hmin 0 (Nat.succ_pos _))
    · rw [find_msc_device, if_neg hp]
      cases i with
      | zero =>
        constructor
        · intro h
          rcases Option.map_eq_some'.mp h with ⟨a, _, ha⟩
          omega
        · rintro ⟨hlen, hok, hmin⟩
          exact absurd ((tryHandshakePort_iff p).mpr (by simpa using hok)) hp
      | succ i' =>
        rw [Option.map_eq_some']
        constructor
        · rintro ⟨a, hfind, ha⟩
          have hfa : find_msc_device ps = some i' := by
            have haa : a = i' := by omega
            rw [← haa]
            exact hfind
          rcases (ih i').mp hfa with ⟨hlen, hok, hmin⟩
          refine ⟨by simp [Nat.succ_lt_succ hlen], by simpa using hok, ?_⟩
          intro j hj
          cases j with
          | zero =>
            simpa using fun hokp => hp ((tryHandshakePort_iff p).mpr hokp)
          | succ j' =>
            simpa using hmin j' (by omega)
        · rintro ⟨hlen, hok, hmin⟩
          refine ⟨i', (ih i').mpr ⟨by simpa using hlen, by simpa using hok, ?_⟩, rfl⟩
          intro j hj
          simpa using hmin (j + 1) (by omega)

/-- C4 witness: the corrected characterization applied to a singleton port
list that passes the handshake. -/
theorem c4_witness :
    find_msc_device
        [{ burst := ['X', 'M', 'S', 'N', '0', '1'],
           confirm := ['M', 'S', 'N', 'C', 'N'], openFails := false }] = some 0 :=
  (c4_first_msn_wins
      [{ burst := ['X', 'M', 'S', 'N', '0', '1'],
         confirm := ['M', 'S', 'N', 'C', 'N'], openFails := false }] 0).mpr
    ⟨by decide, ⟨rfl, by decide, ⟨['X'], ['0', '1'], by decide⟩, ⟨[], [], by decide⟩⟩,
     fun j hj => absurd hj (by omega)⟩

/-- C7 witness: instantiated at the `I` glyph, row 0, column 1 (the bit that
forms the top serif). -/
theorem c7_witness :
    (rotate_bitmap_90 [0x00, 0x41, 0x7F, 0x41, 0x00]).length = 7 ∧
    ((rotate_bitmap_90 [0x00, 0x41, 0x7F, 0x41, 0x00]).getD 0 0).testBit (4 - 1) =
      ([0x00, 0x41, 0x7F, 0x41, 0x00].getD 1 0).testBit 0 ∧
    (∀ k, 5 ≤ k →
      ((rotate_bitmap_90 [0x00, 0x41, 0x7F, 0x41, 0x00]).getD 0 0).testBit k = false) ∧
    FONT_5X7 'I' = some [0x00, 0x41, 0x7F, 0x41, 0x00] ∧
    rotate_bitmap_90 [0x00, 0x41, 0x7F, 0x41, 0x00] =
      [0x0E, 0x04, 0x04, 0x04, 0x04, 0x04, 0x0E] :=
  c7_rotate_bitmap 0x00 0x41 0x7F 0x41 0x00 0 1 (by decide) (by decide)

/-! ## Claim C8: the multi-page ZFS plugin (plugin_zfs_pages.py)

`ZFSPagesPlugin.update` (lines 108-152) first handles the button edge, then
the timed auto-rotation, then draws the current page when `first_draw` is
set.  `_check_button_pressed` (lines 305-308) returns
`adc_value < self.button_threshold if adc_value > 0 else False`, so a
reading of 0 (also the value returned when the ADC read fails) is never a
press, even when it is below the threshold.  Times and ADC values are
Python ints, modelled as `Int`; the threshold is `baseline - 125` and may
be arbitrary. -/

structure ZfsPagesState where
  current_page : Nat
  last_page_change : Int
  page_duration : Int
  button_threshold : Int
  button_was_pressed : Bool
  first_draw : Bool
deriving DecidableEq

/-- Model of `_check_button_pressed`, given the raw ADC channel-9 reading. -/
def zfs_check_button (st : ZfsPagesState) (adc_value : Int) : Bool :=
  if adc_value > 0 then decide (adc_value < st.button_threshold) else false

/-- The page-advance phase of `ZFSPagesPlugin.update` (lines 111-129): button
edge first, then timed rotation; the drawing phase that follows consumes
`first_draw`. -/
def zfs_update_pagestep (st : ZfsPagesState) (current_time adc_value : Int) :
    ZfsPagesState :=
  let button_pressed := zfs_check_button st adc_value
  let st1 :=
    if button_pressed && !st.button_was_pressed then
      { st with current_page := (st.current_page + 1) % 3,
                last_page_change := current_time,
                first_draw := true,
                button_was_pressed := true }
    else if !button_pressed then { st with button_was_pressed := false }
    else st
  if current_time - st1.last_page_change ≥ st1.page_duration then
    { st1 with current_page := (st1.current_page + 1) % 3,
               last_page_change := current_time,
               first_draw := true }
  else st1

/-- C8 counterexample: with threshold 200 (baseline 325), not pressed before,
an ADC reading of 0 — strictly below the threshold, transitioning from
not-pressed to pressed in the claim's terms — does not advance the page, does
not set `first_draw`, and changes nothing at all. -/
theorem c8_counterexample :
    zfs_update_pagestep
        { current_page := 0, last_page_change := 0, page_duration := 4,
          button_threshold := 200, button_was_pressed := false,
          first_draw := false } 1 0 =
      { current_page := 0, last_page_change := 0, page_duration := 4,
        button_threshold := 200, button_was_pressed := false,
        first_draw := false } ∧
    ((0 : Int) < 200) := by
  constructor <;> decide

/-- C8 (corrected): a button edge requires the ADC reading to be strictly
positive as well as strictly below the threshold; such an edge advances the
page by one modulo 3 immediately, resets the rotation timer to the current
time and sets `first_draw` (given a positive `page_duration`, the timed
rotation then cannot fire in the same update).  With no press (reading ≤ 0 or
at/above threshold), the page advances by one modulo 3, the timer resets and
`first_draw` is set whenever at least `page_duration` seconds have elapsed
since the last page change; otherwise only the edge-tracking flag is
cleared. -/
theorem c8_page_rotation (st : ZfsPagesState) (t adc : Int) :
    (0 < st.page_duration → 0 < adc → adc < st.button_threshold →
      st.button_was_pressed = false →
      zfs_update_pagestep st t adc =
        { st with current_page := (st.current_page + 1) % 3,
                  last_page_change := t, first_draw := true,
                  button_was_pressed := true }) ∧
    ((adc ≤ 0 ∨ st.button_threshold ≤ adc) →
      st.page_duration ≤ t - st.last_page_change →
      zfs_update_pagestep st t adc =
        { st with current_page := (st.current_page + 1) % 3,
                  last_page_change := t, first_draw := true,
                  button_was_pressed := false }) ∧
    ((adc ≤ 0 ∨ st.button_threshold ≤ adc) →
      t - st.last_page_change < st.page_duration →
      zfs_update_pagestep st t adc = { st with button_was_pressed := false }) := by
  refine ⟨?_, ?_, ?_⟩
  · intro hd hadc hlt hwas
    have hbtn : zfs_check_button st adc = true := by
      simp [zfs_check_button, hadc, hlt]
    simp only [zfs_update_pagestep, hbtn, hwas, Bool.not_false, Bool.and_self, if_true]
    split_ifs with h2
    · simp only at h2
      omega
    · rfl
  · intro hnp helapsed
    have hbtn : zfs_check_button st adc = false := by
      unfold zfs_check_button
      split_ifs with hpos
      · simp only [decide_eq_false_iff_not, not_lt]
        rcases hnp with h | h <;> omega
      · rfl
    simp only [zfs_update_pagestep, hbtn, Bool.false_and, Bool.false_eq_true, if_false,
      Bool.not_false, if_true]
    split_ifs with h2
    · rfl
    · simp only at h2
      omega
  · intro hnp hlt2
    have hbtn : zfs_check_button st adc = false := by
      unfold zfs_check_button
      split_ifs with hpos
      · simp only [decide_eq_false_iff_not, not_lt]
        rcases hnp with h | h <;> omega
      · rfl
    simp only [zfs_update_pagestep, hbtn, Bool.false_and, Bool.false_eq_true, if_false,
      Bool.not_false, if_true]
    split_ifs with h2
    · simp only at h2
      omega
    · rfl

/-- C8 witness: a button edge with a positive below-threshold reading at page
2 wraps to page 0; with no press and 5 seconds elapsed of a 4-second
`page_duration` the page auto-advances; with no press and 2 seconds elapsed
nothing but the edge-tracking flag changes. -/
theorem c8_witness :
    zfs_update_pagestep
        { current_page := 2, last_page_change := 0, page_duration := 4,
          button_threshold := 200, button_was_pressed := false,
          first_draw := false } 1 100 =
      { current_page := 0, last_page_change := 1, page_duration := 4,
        button_threshold := 200, button_was_pressed := true,
        first_draw := true } ∧
    zfs_update_pagestep
        { current_page := 0, last_page_change := 0, page_duration := 4,
          button_threshold := 200, button_was_pressed := true,
          first_draw := false } 5 300 =
      { current_page := 1, last_page_change := 5, page_duration := 4,
        button_threshold := 200, button_was_pressed := false,
        first_draw := true } ∧
    zfs_update_pagestep
        { current_page := 1, last_page_change := 3, page_duration := 4,
          button_threshold := 200, button_was_pressed := false,
          first_draw := false } 5 0 =
      { current_page := 1, last_page_change := 3, page_duration := 4,
        button_threshold := 200, button_was_pressed := false,
        first_draw := false } :=
  ⟨(c8_page_rotation
      { current_page := 2, last_page_change := 0, page_duration := 4,
        button_threshold := 200, button_was_pressed := false,
        first_draw := false } 1 100).1 (by decide) (by decide) (by decide) rfl,
   (c8_page_rotation
      { current_page := 0, last_page_change := 0, page_duration := 4,
        button_threshold := 200, button_was_pressed := true,
        first_draw := false } 5 300).2.1 (Or.inr (by decide)) (by decide),
   (c8_page_rotation
      { current_page := 1, last_page_change := 3, page_duration := 4,
        button_threshold := 200, button_was_pressed := false,
        first_draw := false } 5 0).2.2 (Or.inl (by decide)) (by decide)⟩

end TinyDisp
